import Mathlib

/-!
Verification development for the WhatsApp bulk-sender engine
(src/src/index.ts and src/config.ts of the repository).

The TypeScript source is shallowly embedded below: the data model of
sessions and results, the delay policy of sendBulkMessagesInternal, the
session state machine (createNewSession, updateSessionProgress,
completeSession), the bulk-send drivers (sendBulkMessages, quickBulkSend,
sendBulkMessagesInternal) and the resume planner (resumeSession).
Randomness (Math.random draws, random template choice) and the external
messenger are modelled by an oracle environment RunEnv; a draw
Math.floor(Math.random() * (max - min + 1)) + min is modelled by
randomInRange u min max = u % (max - min + 1) + min for an arbitrary
natural u supplied by the oracle. JavaScript counters are modelled as Int
so that decrements below zero are represented faithfully.
-/

namespace WhatsAppSender

/-- Status of one BulkMessageResult entry (index.ts line 22). -/
inductive ResultStatus where
  | success
  | failed
  | pending
deriving DecidableEq, Repr

/-- Status of a BulkMessageSession (index.ts line 37). -/
inductive SessionStatus where
  | running
  | completed
  | interrupted
deriving DecidableEq, Repr

/-- The status argument accepted by updateSessionProgress
(index.ts line 350): only success or failed can be recorded. -/
inductive Outcome where
  | success
  | failed
deriving DecidableEq, Repr

/-- Contact record (index.ts lines 8-11). -/
structure Contact where
  name : String
  phone : String
deriving DecidableEq, Repr

/-- Message template (index.ts lines 13-17); media is the possibly empty
list of file paths. -/
structure MessageTemplate where
  name : String
  content : String
  media : List String
deriving DecidableEq, Repr

/-- One per-contact send record, BulkMessageResult (index.ts lines 19-26). -/
structure BulkMessageResult where
  contact : Contact
  template : MessageTemplate
  status : ResultStatus
  timestamp : String
  error : Option String
  messageId : Option String
deriving DecidableEq, Repr

/-- One optional delay rule, the everyNMessages record of the
configuration (config.ts): wait a draw from [min, max] every n messages. -/
structure DelayRule where
  n : Nat
  min : Nat
  max : Nat
deriving DecidableEq, Repr

/-- The delaySettings snapshot stored in a session (index.ts lines 38-42). -/
structure DelaySettings where
  minDelay : Nat
  maxDelay : Nat
  optionalDelays : List DelayRule
deriving DecidableEq, Repr

/-- BulkMessageSession (index.ts lines 28-43). The three counters are Int
because the JavaScript decrements are not clamped at zero. -/
structure BulkMessageSession where
  id : String
  startTime : String
  endTime : Option String
  totalContacts : Nat
  completedContacts : Int
  failedContacts : Int
  pendingContacts : Int
  results : List BulkMessageResult
  status : SessionStatus
  delaySettings : DelaySettings
deriving DecidableEq, Repr

/-- Model of Math.floor(Math.random() * (hi - lo + 1)) + lo: the oracle
value u stands for the floor of random times the span, reduced into
[0, hi - lo] by the modulus. -/
def randomInRange (u lo hi : Nat) : Nat :=
  u % (hi - lo + 1) + lo

/-- The for-loop with break over optionalDelays (index.ts lines 1031-1040):
the first rule in input order whose n divides the 1-based message number. -/
def firstMatchingRule (msgNum : Nat) (rules : List DelayRule) : Option DelayRule :=
  rules.find? (fun rule => msgNum % rule.n == 0)

/-- The delays waited after a successful non-final message (index.ts lines
1024-1042): always one base draw from [minDelay, maxDelay], then, when some
rule matches the 1-based message number msgNum, additionally one draw from
the range of the first matching rule. ub and ur are the oracle values of
the two Math.random draws. -/
def delaysAfterMessage (settings : DelaySettings) (msgNum : Nat) (ub ur : Nat) : List Nat :=
  randomInRange ub settings.minDelay settings.maxDelay ::
    (match firstMatchingRule msgNum settings.optionalDelays with
     | some rule => [randomInRange ur rule.min rule.max]
     | none => [])

/-- createNewSession (index.ts lines 332-348): fresh running session with
zeroed counters and pending equal to the contact count. -/
def createNewSession (id startTime : String) (totalContacts : Nat)
    (delaySettings : DelaySettings) : BulkMessageSession :=
  { id := id
    startTime := startTime
    endTime := none
    totalContacts := totalContacts
    completedContacts := 0
    failedContacts := 0
    pendingContacts := (totalContacts : Int)
    results := []
    status := SessionStatus.running
    delaySettings := delaySettings }

/-- updateSessionProgress (index.ts lines 350-373): append one result and
adjust the counters according to the outcome. -/
def updateSessionProgress (s : BulkMessageSession) (contact : Contact)
    (template : MessageTemplate) (status : Outcome) (error : Option String)
    (messageId : Option String) (timestamp : String) : BulkMessageSession :=
  let result : BulkMessageResult :=
    { contact := contact
      template := template
      status := match status with
                | Outcome.success => ResultStatus.success
                | Outcome.failed => ResultStatus.failed
      timestamp := timestamp
      error := error
      messageId := messageId }
  match status with
  | Outcome.success =>
      { s with results := s.results ++ [result]
               completedContacts := s.completedContacts + 1
               pendingContacts := s.pendingContacts - 1 }
  | Outcome.failed =>
      { s with results := s.results ++ [result]
               failedContacts := s.failedContacts + 1
               pendingContacts := s.pendingContacts - 1 }

/-- completeSession (index.ts lines 375-397): set the terminal status and
the end time. -/
def completeSession (endTime : String) (status : SessionStatus)
    (s : BulkMessageSession) : BulkMessageSession :=
  { s with status := status, endTime := some endTime }

/-- One recordOutcome call: the argument tuple of updateSessionProgress. -/
structure RecordCall where
  contact : Contact
  template : MessageTemplate
  outcome : Outcome
  error : Option String
  messageId : Option String
  timestamp : String
deriving DecidableEq, Repr

/-- Apply a sequence of recordOutcome calls to a session. -/
def applyCalls (s : BulkMessageSession) (calls : List RecordCall) : BulkMessageSession :=
  calls.foldl
    (fun acc c =>
      updateSessionProgress acc c.contact c.template c.outcome c.error c.messageId c.timestamp)
    s

/-- Number of results carrying a given status. -/
def countStatus (st : ResultStatus) (rs : List BulkMessageResult) : Nat :=
  rs.countP (fun r => r.status == st)

/-- Result of one external send attempt, as observed by the driver:
either a message id or the error message of the thrown error. -/
inductive SendOutcome where
  | success (messageId : String)
  | failure (error : String)
deriving DecidableEq, Repr

/-- Oracle environment for one driver run: the outcome of the i-th send,
the randomly selected template for the i-th contact, the timestamp of the
i-th record and the raw values of the two Math.random draws after the i-th
message. -/
structure RunEnv where
  outcome : Nat → SendOutcome
  template : Nat → MessageTemplate
  timestamp : Nat → String
  baseRand : Nat → Nat
  ruleRand : Nat → Nat

/-- Result of a driver run: the final session plus the list of delay
waits performed, in order. -/
structure RunTrace where
  session : BulkMessageSession
  waits : List Nat
deriving Repr

/-- The loop body of sendBulkMessagesInternal (index.ts lines 995-1049),
with total the length of the contact array of this call and i the current
index. Each iteration first checks the cooperative interruption flag, then
sends (outcome given by the oracle), records the outcome, and, only on the
success path and only when a contact remains (i + 1 < total), waits the
base draw followed by the first-matching optional rule draw; the failure
path records the failed result and continues immediately. -/
def sendBulkMessagesInternalGo (env : RunEnv) (ds : DelaySettings) (total : Nat) :
    List Contact → Nat → BulkMessageSession → RunTrace
  | [], _, s => { session := s, waits := [] }
  | contact :: rest, i, s =>
    if s.status = SessionStatus.interrupted then
      { session := s, waits := [] }
    else
      match env.outcome i with
      | SendOutcome.success mid =>
          let s2 := updateSessionProgress s contact (env.template i) Outcome.success
            none (some mid) (env.timestamp i)
          let ws := if i + 1 < total then
              delaysAfterMessage ds (i + 1) (env.baseRand i) (env.ruleRand i)
            else []
          let t := sendBulkMessagesInternalGo env ds total rest (i + 1) s2
          { session := t.session, waits := ws ++ t.waits }
      | SendOutcome.failure err =>
          let s2 := updateSessionProgress s contact (env.template i) Outcome.failed
            (some err) none (env.timestamp i)
          sendBulkMessagesInternalGo env ds total rest (i + 1) s2

/-- sendBulkMessagesInternal (index.ts lines 995-1049). -/
def sendBulkMessagesInternal (env : RunEnv) (contacts : List Contact)
    (ds : DelaySettings) (s : BulkMessageSession) : RunTrace :=
  sendBulkMessagesInternalGo env ds contacts.length contacts 0 s

/-- The processedContacts set of resumeSession (index.ts line 592): the
phones recorded in the session results. -/
def processedPhones (s : BulkMessageSession) : List String :=
  s.results.map (fun r => r.contact.phone)

/-- The remaining work set of resumeSession (index.ts line 593): current
contacts whose phone is not among the processed phones. -/
def remainingContacts (s : BulkMessageSession) (contacts : List Contact) : List Contact :=
  contacts.filter (fun c => !((processedPhones s).contains c.phone))

/-- Lines 585-586 of index.ts: resume reactivates the selected session
object itself, setting its status back to running in place. -/
def resumeReactivate (session : BulkMessageSession) : BulkMessageSession :=
  { session with status := SessionStatus.running }

/-- resumeSession (index.ts lines 584-605): reactivate the session, compute
the remaining contacts, finalize as completed at once when none remain,
otherwise run the internal loop on the remaining contacts with the
delaySettings of the session. Note the source calls completeSession only
on the empty-remaining path. -/
def resumeSession (env : RunEnv) (currentContacts : List Contact)
    (endTime : String) (session : BulkMessageSession) : BulkMessageSession :=
  let s := resumeReactivate session
  let remaining := remainingContacts s currentContacts
  if remaining.isEmpty then
    completeSession endTime SessionStatus.completed s
  else
    (sendBulkMessagesInternal env remaining s.delaySettings s).session

/-- sendBulkMessages (index.ts lines 941-993), sequential model: reject an
empty contact list, an empty template list, or a delay range with
maxDelay at most minDelay before any session is created; otherwise create
the session, run the internal loop, and finalize as completed. -/
def sendBulkMessages (env : RunEnv) (contacts : List Contact)
    (templates : List MessageTemplate) (minDelay maxDelay : Nat)
    (optionalDelays : List DelayRule) (id startTime endTime : String) :
    Option BulkMessageSession :=
  if contacts.isEmpty then none
  else if templates.isEmpty then none
  else if maxDelay ≤ minDelay then none
  else
    let ds : DelaySettings :=
      { minDelay := minDelay, maxDelay := maxDelay, optionalDelays := optionalDelays }
    let s0 := createNewSession id startTime contacts.length ds
    some (completeSession endTime SessionStatus.completed
      (sendBulkMessagesInternal env contacts ds s0).session)

/-- quickBulkSend (index.ts lines 1051-1106), sequential model: reject an
empty contact list or an empty template list, then ask for confirmation;
the delay range comes from the configuration and is not validated here.
On confirmation create the session, run the loop, finalize as completed. -/
def quickBulkSend (env : RunEnv) (contacts : List Contact)
    (templates : List MessageTemplate) (quickBulkMinDelay quickBulkMaxDelay : Nat)
    (optionalDelays : List DelayRule) (confirm : Bool)
    (id startTime endTime : String) : Option BulkMessageSession :=
  if contacts.isEmpty then none
  else if templates.isEmpty then none
  else if !confirm then none
  else
    let ds : DelaySettings :=
      { minDelay := quickBulkMinDelay, maxDelay := quickBulkMaxDelay,
        optionalDelays := optionalDelays }
    let s0 := createNewSession id startTime contacts.length ds
    some (completeSession endTime SessionStatus.completed
      (sendBulkMessagesInternal env contacts ds s0).session)

/-- Executable model of String.startsWith, at the character-list level. -/
def strStartsWith (s pre : String) : Bool :=
  pre.toList.isPrefixOf s.toList

/-- Executable model of String.drop (the substring from index n on). -/
def strDrop (s : String) (n : Nat) : String :=
  String.mk (s.toList.drop n)

/-- formatPhoneNumber (index.ts lines 1108-1123): strip non-digits, fix the
country prefix, append the transport suffix. -/
def formatPhoneNumber (phone : String) : String :=
  let cleanNumber := String.mk (phone.toList.filter (fun c => c.isDigit))
  if strStartsWith cleanNumber "0" then
    "62" ++ strDrop cleanNumber 1 ++ "@c.us"
  else if strStartsWith cleanNumber "62" then
    cleanNumber ++ "@c.us"
  else
    "62" ++ cleanNumber ++ "@c.us"

/-- The normalization rule in the words of the specification: strip all
non-digit characters, then replace a leading 0 by 62, keep a leading 62,
otherwise prepend 62, and finally append the transport suffix. -/
def normalizePhoneSpec (phone : String) : String :=
  let digits := String.mk (phone.toList.filter (fun c => c.isDigit))
  let prefixed :=
    if strStartsWith digits "0" then "62" ++ strDrop digits 1
    else if strStartsWith digits "62" then digits
    else "62" ++ digits
  prefixed ++ "@c.us"

/-- The delays waited over a whole run, stated independently of the session
threading: the i-th contact contributes the base draw followed by the
first-matching-rule draw when its send succeeds and it is not the last
contact of the batch, and nothing otherwise. -/
def waitsSpec (env : RunEnv) (ds : DelaySettings) (total : Nat) : Nat → Nat → List Nat
  | _, 0 => []
  | i, k + 1 =>
    (match env.outcome i with
     | SendOutcome.success _ =>
         if i + 1 < total then
           delaysAfterMessage ds (i + 1) (env.baseRand i) (env.ruleRand i)
         else []
     | SendOutcome.failure _ => []) ++ waitsSpec env ds total (i + 1) k

/-- The delay configuration of the priority example: base range 3-8s,
rules every 5 messages 20-30s and every 10 messages 30-60s (the
defaultConfig of the Docker config.ts and the README example). -/
def exampleDelaySettings : DelaySettings :=
  { minDelay := 3, maxDelay := 8,
    optionalDelays := [{ n := 5, min := 20, max := 30 }, { n := 10, min := 30, max := 60 }] }

/-- Fixture template. -/
def tmplT : MessageTemplate :=
  { name := "promo", content := "hello", media := [] }

/-- Fixture contact A. -/
def contactA : Contact :=
  { name := "Alice", phone := "0811" }

/-- Fixture contact B. -/
def contactB : Contact :=
  { name := "Bob", phone := "0822" }

/-- Fixture contacts C and D: two distinct contacts sharing one phone. -/
def contactC : Contact :=
  { name := "Carol", phone := "0833" }

/-- Second holder of the duplicated phone. -/
def contactD : Contact :=
  { name := "Dan", phone := "0833" }

/-- Oracle under which every send succeeds. -/
def envAllSuccess : RunEnv :=
  { outcome := fun _ => SendOutcome.success "mid"
    template := fun _ => tmplT
    timestamp := fun _ => "ts"
    baseRand := fun _ => 2
    ruleRand := fun _ => 5 }

/-- Oracle under which the first send fails and the rest succeed. -/
def envFirstFails : RunEnv :=
  { outcome := fun i => if i = 0 then SendOutcome.failure "blocked" else SendOutcome.success "mid"
    template := fun _ => tmplT
    timestamp := fun _ => "ts"
    baseRand := fun _ => 2
    ruleRand := fun _ => 5 }

/-- Recorded successful send to contact A. -/
def resultA : BulkMessageResult :=
  { contact := contactA, template := tmplT, status := ResultStatus.success,
    timestamp := "t0", error := none, messageId := some "m1" }

/-- Recorded successful send to contact C. -/
def resultC : BulkMessageResult :=
  { contact := contactC, template := tmplT, status := ResultStatus.success,
    timestamp := "t0", error := none, messageId := some "m2" }

/-- Persisted interrupted session: two contacts total, contact A already
sent successfully, one still pending. -/
def sessInterrupted : BulkMessageSession :=
  { id := "session-1", startTime := "t0", endTime := some "t1",
    totalContacts := 2, completedContacts := 1, failedContacts := 0,
    pendingContacts := 1, results := [resultA],
    status := SessionStatus.interrupted,
    delaySettings := exampleDelaySettings }

/-- Persisted interrupted session whose single result records the phone
shared by contacts C and D. -/
def sessDuplicate : BulkMessageSession :=
  { id := "session-2", startTime := "t0", endTime := some "t1",
    totalContacts := 2, completedContacts := 1, failedContacts := 0,
    pendingContacts := 1, results := [resultC],
    status := SessionStatus.interrupted,
    delaySettings := exampleDelaySettings }

/-- Fallback session value used to unpack optional driver results. -/
def dfltSession : BulkMessageSession :=
  createNewSession "" "" 0 exampleDelaySettings

/-- A concrete full bulk run: one contact, one template, valid range. -/
def bulkW : Option BulkMessageSession :=
  sendBulkMessages envAllSuccess [contactA] [tmplT] 3 8 [] "id" "t0" "t1"

/-- A concrete confirmed quick bulk run: one contact, one template. -/
def quickW : Option BulkMessageSession :=
  quickBulkSend envAllSuccess [contactA] [tmplT] 2 6 [] true "id" "t0" "t1"

/-- Counter consistency of a session against its creation size N: the three
counters sum to N, the completed and failed counters count the results with
the respective status, and pending is N minus the number of results. -/
def sessionConsistent (N : Nat) (s : BulkMessageSession) : Prop :=
  s.completedContacts + s.failedContacts + s.pendingContacts = (N : Int) ∧
  s.completedContacts = (countStatus ResultStatus.success s.results : Int) ∧
  s.failedContacts = (countStatus ResultStatus.failed s.results : Int) ∧
  s.pendingContacts = (N : Int) - (s.results.length : Int)

theorem updateSessionProgress_status (s : BulkMessageSession) (c : Contact)
    (t : MessageTemplate) (o : Outcome) (e m : Option String) (ts : String) :
    (updateSessionProgress s c t o e m ts).status = s.status := by
  cases o <;> rfl

theorem updateSessionProgress_pendingContacts (s : BulkMessageSession) (c : Contact)
    (t : MessageTemplate) (o : Outcome) (e m : Option String) (ts : String) :
    (updateSessionProgress s c t o e m ts).pendingContacts = s.pendingContacts - 1 := by
  cases o <;> rfl

theorem updateSessionProgress_delaySettings (s : BulkMessageSession) (c : Contact)
    (t : MessageTemplate) (o : Outcome) (e m : Option String) (ts : String) :
    (updateSessionProgress s c t o e m ts).delaySettings = s.delaySettings := by
  cases o <;> rfl

theorem sessionConsistent_create (N : Nat) (id t0 : String) (ds : DelaySettings) :
    sessionConsistent N (createNewSession id t0 N ds) := by
  simp [sessionConsistent, createNewSession, countStatus]

theorem sessionConsistent_update (N : Nat) (s : BulkMessageSession) (c : Contact)
    (t : MessageTemplate) (o : Outcome) (e m : Option String) (ts : String)
    (h : sessionConsistent N s) :
    sessionConsistent N (updateSessionProgress s c t o e m ts) := by
  obtain ⟨h1, h2, h3, h4⟩ := h
  simp only [countStatus] at h2 h3
  cases o <;>
    simp [sessionConsistent, updateSessionProgress, countStatus, List.countP_append,
      List.countP_cons] <;>
    refine ⟨by omega, by omega, by omega, by omega⟩

theorem sessionConsistent_applyCalls (N : Nat) (calls : List RecordCall)
    (s : BulkMessageSession) (h : sessionConsistent N s) :
    sessionConsistent N (applyCalls s calls) := by
  induction calls generalizing s with
  | nil => exact h
  | cons c rest ih =>
      exact ih _ (sessionConsistent_update N s c.contact c.template c.outcome
        c.error c.messageId c.timestamp h)

theorem results_append_update (s : BulkMessageSession) (c : Contact)
    (t : MessageTemplate) (o : Outcome) (e m : Option String) (ts : String) :
    ∃ r, (updateSessionProgress s c t o e m ts).results = s.results ++ [r] := by
  cases o <;> exact ⟨_, rfl⟩

theorem results_prefix_applyCalls (calls : List RecordCall) (s : BulkMessageSession) :
    s.results <+: (applyCalls s calls).results := by
  induction calls generalizing s with
  | nil => exact List.prefix_refl _
  | cons c rest ih =>
      obtain ⟨r, hr⟩ := results_append_update s c.contact c.template c.outcome
        c.error c.messageId c.timestamp
      refine List.IsPrefix.trans ?_ (ih (updateSessionProgress s c.contact c.template
        c.outcome c.error c.messageId c.timestamp))
      rw [hr]
      exact List.prefix_append _ _

theorem applyCalls_append (s : BulkMessageSession) (l1 l2 : List RecordCall) :
    applyCalls s (l1 ++ l2) = applyCalls (applyCalls s l1) l2 := by
  simp [applyCalls, List.foldl_append]

theorem internalGo_run (env : RunEnv) (ds : DelaySettings) (total : Nat)
    (cs : List Contact) : ∀ (i : Nat) (s : BulkMessageSession),
    s.status = SessionStatus.running →
    (sendBulkMessagesInternalGo env ds total cs i s).session.status = SessionStatus.running ∧
    (sendBulkMessagesInternalGo env ds total cs i s).session.pendingContacts
      = s.pendingContacts - cs.length := by
  induction cs with
  | nil =>
      intro i s h
      refine ⟨h, ?_⟩
      simp [sendBulkMessagesInternalGo]
  | cons c rest ih =>
      intro i s h
      have hni : ¬ s.status = SessionStatus.interrupted := by rw [h]; simp
      cases houtcome : env.outcome i with
      | success mid =>
          have hstep := ih (i + 1)
            (updateSessionProgress s c (env.template i) Outcome.success none (some mid)
              (env.timestamp i))
            (by rw [updateSessionProgress_status]; exact h)
          simp only [sendBulkMessagesInternalGo, hni, houtcome, if_false, ite_false]
          refine ⟨hstep.1, ?_⟩
          rw [hstep.2, updateSessionProgress_pendingContacts]
          simp only [List.length_cons]
          push_cast
          ring
      | failure err =>
          have hstep := ih (i + 1)
            (updateSessionProgress s c (env.template i) Outcome.failed (some err) none
              (env.timestamp i))
            (by rw [updateSessionProgress_status]; exact h)
          simp only [sendBulkMessagesInternalGo, hni, houtcome, if_false, ite_false]
          refine ⟨hstep.1, ?_⟩
          rw [hstep.2, updateSessionProgress_pendingContacts]
          simp only [List.length_cons]
          push_cast
          ring

theorem internalGo_waits (env : RunEnv) (ds : DelaySettings) (total : Nat)
    (cs : List Contact) : ∀ (i : Nat) (s : BulkMessageSession),
    s.status = SessionStatus.running →
    (sendBulkMessagesInternalGo env ds total cs i s).waits
      = waitsSpec env ds total i cs.length := by
  induction cs with
  | nil =>
      intro i s h
      simp [sendBulkMessagesInternalGo, waitsSpec]
  | cons c rest ih =>
      intro i s h
      have hni : ¬ s.status = SessionStatus.interrupted := by rw [h]; simp
      cases houtcome : env.outcome i with
      | success mid =>
          have hstep := ih (i + 1)
            (updateSessionProgress s c (env.template i) Outcome.success none (some mid)
              (env.timestamp i))
            (by rw [updateSessionProgress_status]; exact h)
          simp only [sendBulkMessagesInternalGo, waitsSpec, hni, houtcome, if_false,
            ite_false, List.length_cons, hstep]
      | failure err =>
          have hstep := ih (i + 1)
            (updateSessionProgress s c (env.template i) Outcome.failed (some err) none
              (env.timestamp i))
            (by rw [updateSessionProgress_status]; exact h)
          simp only [sendBulkMessagesInternalGo, waitsSpec, hni, houtcome, if_false,
            ite_false, List.length_cons, hstep, List.nil_append]

theorem sendBulkMessages_some (env : RunEnv) (cs : List Contact)
    (ts : List MessageTemplate) (mi ma : Nat) (od : List DelayRule)
    (id t0 t1 : String) (s : BulkMessageSession)
    (h : sendBulkMessages env cs ts mi ma od id t0 t1 = some s) :
    s.status = SessionStatus.completed ∧ s.endTime = some t1 ∧ s.pendingContacts = 0 := by
  unfold sendBulkMessages at h
  split_ifs at h
  rw [Option.some_inj] at h
  subst h
  have hrun := internalGo_run env
    { minDelay := mi, maxDelay := ma, optionalDelays := od } cs.length cs 0
    (createNewSession id t0 cs.length { minDelay := mi, maxDelay := ma, optionalDelays := od })
    rfl
  refine ⟨rfl, rfl, ?_⟩
  show (sendBulkMessagesInternalGo env _ cs.length cs 0 _).session.pendingContacts = 0
  rw [hrun.2]
  simp [createNewSession]

theorem quickBulkSend_some (env : RunEnv) (cs : List Contact)
    (ts : List MessageTemplate) (q1 q2 : Nat) (od : List DelayRule) (cf : Bool)
    (id t0 t1 : String) (s : BulkMessageSession)
    (h : quickBulkSend env cs ts q1 q2 od cf id t0 t1 = some s) :
    s.status = SessionStatus.completed ∧ s.endTime = some t1 ∧ s.pendingContacts = 0 := by
  unfold quickBulkSend at h
  split_ifs at h
  rw [Option.some_inj] at h
  subst h
  have hrun := internalGo_run env
    { minDelay := q1, maxDelay := q2, optionalDelays := od } cs.length cs 0
    (createNewSession id t0 cs.length { minDelay := q1, maxDelay := q2, optionalDelays := od })
    rfl
  refine ⟨rfl, rfl, ?_⟩
  show (sendBulkMessagesInternalGo env _ cs.length cs 0 _).session.pendingContacts = 0
  rw [hrun.2]
  simp [createNewSession]

theorem mem_remainingContacts (s : BulkMessageSession) (cs : List Contact) (c : Contact) :
    c ∈ remainingContacts s cs ↔ c ∈ cs ∧ ∀ r ∈ s.results, r.contact.phone ≠ c.phone := by
  simp [remainingContacts, processedPhones, List.mem_filter]

/-- Claim C1. The claim states that a matching optional delay rule with the
largest everyN replaces the base delay, so that message index 10 under
rules every-5 20-30s and every-10 30-60s with base 3-8s waits a single
draw from [30, 60]. The code instead always waits the base draw and then
additionally waits a draw from the first matching rule in input order:
at message 10 the matched rule is the every-5 rule (range [20, 30]) and
two delays are waited, here the base draw 5 (from [3, 8]) followed by 25
(from [20, 30]); the full 11-contact run exhibits the same pair after
messages 5 and 10. -/
theorem delayPolicy_message10_adds_first_match :
    firstMatchingRule 10 exampleDelaySettings.optionalDelays
      = some { n := 5, min := 20, max := 30 } ∧
    delaysAfterMessage exampleDelaySettings 10 2 5 = [5, 25] ∧
    (sendBulkMessagesInternal envAllSuccess (List.replicate 11 contactB) exampleDelaySettings
        (createNewSession "id" "t0" 11 exampleDelaySettings)).waits
      = [5, 5, 5, 5, 5, 25, 5, 5, 5, 5, 5, 25] := by
  decide

/-- Claim C2. For every sequence of recordOutcome calls on a session
created with totalContacts N, after every call the counters satisfy
completed + failed + pending = N, completed counts the success results,
failed counts the failed results, pending is N minus the number of
results, and the results list of any earlier point of the sequence is a
prefix of the later one (append-only). -/
theorem recordOutcome_counters_invariant (N : Nat) (id t0 : String)
    (ds : DelaySettings) (calls : List RecordCall) (k : Nat) :
    (applyCalls (createNewSession id t0 N ds) calls).completedContacts
        + (applyCalls (createNewSession id t0 N ds) calls).failedContacts
        + (applyCalls (createNewSession id t0 N ds) calls).pendingContacts = (N : Int) ∧
    (applyCalls (createNewSession id t0 N ds) calls).completedContacts
        = (countStatus ResultStatus.success
            (applyCalls (createNewSession id t0 N ds) calls).results : Int) ∧
    (applyCalls (createNewSession id t0 N ds) calls).failedContacts
        = (countStatus ResultStatus.failed
            (applyCalls (createNewSession id t0 N ds) calls).results : Int) ∧
    (applyCalls (createNewSession id t0 N ds) calls).pendingContacts
        = (N : Int) - ((applyCalls (createNewSession id t0 N ds) calls).results.length : Int) ∧
    (applyCalls (createNewSession id t0 N ds) (calls.take k)).results
        <+: (applyCalls (createNewSession id t0 N ds) calls).results := by
  obtain ⟨h1, h2, h3, h4⟩ :=
    sessionConsistent_applyCalls N calls _ (sessionConsistent_create N id t0 ds)
  refine ⟨h1, h2, h3, h4, ?_⟩
  conv_rhs => rw [← List.take_append_drop k calls]
  rw [applyCalls_append]
  exact results_prefix_applyCalls _ _

/-- Claim C3. formatPhoneNumber agrees with the normalization rule of the
specification on every input string, and on the three concrete examples. -/
theorem formatPhoneNumber_spec (s : String) :
    formatPhoneNumber s = normalizePhoneSpec s ∧
    formatPhoneNumber "081234567890" = "6281234567890@c.us" ∧
    formatPhoneNumber "81234567890" = "6281234567890@c.us" ∧
    formatPhoneNumber "6281234567890" = "6281234567890@c.us" := by
  refine ⟨?_, by decide, by decide, by decide⟩
  simp only [formatPhoneNumber, normalizePhoneSpec]
  split
  · rfl
  · split <;> rfl

/-- Claim C4. The remaining set of the resume planner is exactly the
current contacts whose phone is recorded in no SendResult of the persisted
session, and whenever the remaining set is empty resumeSession finalizes
the session as completed at once (setting its end time) instead of
starting a loop. -/
theorem resume_plan_exactness (env : RunEnv) (s : BulkMessageSession)
    (cs : List Contact) (c : Contact) (et : String) :
    (c ∈ remainingContacts s cs ↔ c ∈ cs ∧ ∀ r ∈ s.results, r.contact.phone ≠ c.phone) ∧
    (remainingContacts s cs = [] →
      (resumeSession env cs et s).status = SessionStatus.completed ∧
      (resumeSession env cs et s).endTime = some et ∧
      (resumeSession env cs et s).results = s.results) := by
  refine ⟨mem_remainingContacts s cs c, fun h => ?_⟩
  have hre : remainingContacts (resumeReactivate s) cs = remainingContacts s cs := rfl
  unfold resumeSession
  simp only [hre, h, List.isEmpty_nil, if_true]
  exact ⟨rfl, rfl, rfl⟩

/-- Witness for claim C4 at a concrete session and contact list whose
remaining set is empty. -/
theorem resume_plan_exactness_witness :
    (contactA ∈ remainingContacts sessInterrupted [contactA] ↔
      contactA ∈ [contactA] ∧
        ∀ r ∈ sessInterrupted.results, r.contact.phone ≠ contactA.phone) ∧
    ((resumeSession envAllSuccess [contactA] "t2" sessInterrupted).status
        = SessionStatus.completed ∧
      (resumeSession envAllSuccess [contactA] "t2" sessInterrupted).endTime = some "t2" ∧
      (resumeSession envAllSuccess [contactA] "t2" sessInterrupted).results
        = sessInterrupted.results) :=
  ⟨(resume_plan_exactness envAllSuccess sessInterrupted [contactA] contactA "t2").1,
   (resume_plan_exactness envAllSuccess sessInterrupted [contactA] contactA "t2").2
     (by decide)⟩

/-- Claim C5. On the concrete resume run whose remaining set is the single
contact B and whose send succeeds, the loop processes every remaining
contact (two results, nothing pending), yet the session is left with
status running and its stale end time: resumeSession never calls
completeSession after the internal loop, so a resumed run that finishes
cleanly is not transitioned to completed as the claim requires. -/
theorem resumeSession_completed_loop_stays_running :
    (remainingContacts sessInterrupted [contactA, contactB]).length = 1 ∧
    (resumeSession envAllSuccess [contactA, contactB] "t2" sessInterrupted).results.length = 2 ∧
    (resumeSession envAllSuccess [contactA, contactB] "t2" sessInterrupted).pendingContacts = 0 ∧
    (resumeSession envAllSuccess [contactA, contactB] "t2" sessInterrupted).status
      = SessionStatus.running ∧
    (resumeSession envAllSuccess [contactA, contactB] "t2" sessInterrupted).endTime
      = some "t1" := by
  decide

/-- Counterexample to claim C6 as stated: resuming sessInterrupted against
a contact list fully covered by its results finalizes the session as
completed while one contact of the original batch is still pending. -/
theorem resume_finalizes_completed_with_pending :
    (resumeSession envAllSuccess [contactA] "t2" sessInterrupted).status
      = SessionStatus.completed ∧
    (resumeSession envAllSuccess [contactA] "t2" sessInterrupted).pendingContacts = 1 := by
  decide

/-- Claim C6 as amended: a session finalized as completed by a full bulk
or quick-bulk run has pendingContacts zero; only the resume path that
finalizes on an empty remaining set may finalize as completed with
pendingContacts positive. -/
theorem full_run_completed_pending_zero (env : RunEnv) (cs : List Contact)
    (ts : List MessageTemplate) (mi ma q1 q2 : Nat) (od : List DelayRule) (cf : Bool)
    (id t0 t1 : String) (s s2 : BulkMessageSession)
    (hb : sendBulkMessages env cs ts mi ma od id t0 t1 = some s)
    (hq : quickBulkSend env cs ts q1 q2 od cf id t0 t1 = some s2) :
    s.status = SessionStatus.completed ∧ s.pendingContacts = 0 ∧
    s2.status = SessionStatus.completed ∧ s2.pendingContacts = 0 := by
  obtain ⟨hs1, -, hs3⟩ := sendBulkMessages_some env cs ts mi ma od id t0 t1 s hb
  obtain ⟨hq1, -, hq3⟩ := quickBulkSend_some env cs ts q1 q2 od cf id t0 t1 s2 hq
  exact ⟨hs1, hs3, hq1, hq3⟩

/-- Witness for the amended claim C6 on concrete one-contact runs. -/
theorem full_run_completed_pending_zero_witness :
    (bulkW.getD dfltSession).status = SessionStatus.completed ∧
    (bulkW.getD dfltSession).pendingContacts = 0 ∧
    (quickW.getD dfltSession).status = SessionStatus.completed ∧
    (quickW.getD dfltSession).pendingContacts = 0 :=
  full_run_completed_pending_zero envAllSuccess [contactA] [tmplT] 3 8 2 6 [] true
    "id" "t0" "t1" (bulkW.getD dfltSession) (quickW.getD dfltSession)
    (by decide) (by decide)

/-- Counterexample to claim C7 as stated: resumeSession reactivates the
selected interrupted session itself, flipping its status from interrupted
back to running while keeping its id and results, so interrupted is not
terminal and no new session is constructed. -/
theorem resumeSession_reactivates_interrupted :
    sessInterrupted.status = SessionStatus.interrupted ∧
    (resumeReactivate sessInterrupted).status = SessionStatus.running ∧
    (resumeReactivate sessInterrupted).id = sessInterrupted.id ∧
    (resumeReactivate sessInterrupted).results = sessInterrupted.results := by
  decide

/-- Claim C7 as amended: besides running to completed and running to
interrupted, the machine admits interrupted back to running via resume,
which reuses the same session in place (id, results, counters and total
preserved) rather than reconstructing a new one. -/
theorem resume_reuses_session_in_place (s : BulkMessageSession)
    (h : s.status = SessionStatus.interrupted) :
    (resumeReactivate s).status = SessionStatus.running ∧
    (resumeReactivate s).status ≠ s.status ∧
    (resumeReactivate s).id = s.id ∧
    (resumeReactivate s).results = s.results ∧
    (resumeReactivate s).completedContacts = s.completedContacts ∧
    (resumeReactivate s).totalContacts = s.totalContacts := by
  rw [h]
  simp [resumeReactivate]

/-- Witness for the amended claim C7 at the concrete interrupted session. -/
theorem resume_reuses_session_in_place_witness :
    (resumeReactivate sessInterrupted).status = SessionStatus.running ∧
    (resumeReactivate sessInterrupted).status ≠ sessInterrupted.status ∧
    (resumeReactivate sessInterrupted).id = sessInterrupted.id ∧
    (resumeReactivate sessInterrupted).results = sessInterrupted.results ∧
    (resumeReactivate sessInterrupted).completedContacts
      = sessInterrupted.completedContacts ∧
    (resumeReactivate sessInterrupted).totalContacts = sessInterrupted.totalContacts :=
  resume_reuses_session_in_place sessInterrupted (by decide)

/-- Counterexample to claim C8 as stated: in a two-contact run whose first
send fails, one contact still remains after the first is processed, yet no
delay at all is waited (the delay block sits on the success path only). -/
theorem no_delay_after_failed_send :
    ((sendBulkMessagesInternal envFirstFails [contactA, contactB] exampleDelaySettings
        (createNewSession "id" "t0" 2 exampleDelaySettings)).session.results.map
      (fun r => r.status)) = [ResultStatus.failed, ResultStatus.success] ∧
    (sendBulkMessagesInternal envFirstFails [contactA, contactB] exampleDelaySettings
        (createNewSession "id" "t0" 2 exampleDelaySettings)).waits = [] := by
  decide

/-- Claim C8 as amended: the delays waited by a run are exactly one base
draw plus the first-matching optional rule draw after each successful send
that is not the last of the batch, and nothing after a failed send or
after the last contact. -/
theorem driver_waits_after_success_only (env : RunEnv) (cs : List Contact)
    (ds : DelaySettings) (s : BulkMessageSession)
    (h : s.status = SessionStatus.running) :
    (sendBulkMessagesInternal env cs ds s).waits = waitsSpec env ds cs.length 0 cs.length :=
  internalGo_waits env ds cs.length cs 0 s h

/-- Witness for the amended claim C8 on a concrete two-contact run. -/
theorem driver_waits_after_success_only_witness :
    (sendBulkMessagesInternal envAllSuccess [contactA, contactB] exampleDelaySettings
        (createNewSession "id" "t0" 2 exampleDelaySettings)).waits
      = waitsSpec envAllSuccess exampleDelaySettings 2 0 2 :=
  driver_waits_after_success_only envAllSuccess [contactA, contactB] exampleDelaySettings
    (createNewSession "id" "t0" 2 exampleDelaySettings) (by decide)

/-- Counterexample to claim C9 as stated: quickBulkSend with an inverted
configured delay range (min 5, max 3) is not rejected; the run starts and
a session with that range is created and completed. -/
theorem quickBulkSend_skips_range_validation :
    (quickBulkSend envAllSuccess [contactA] [tmplT] 5 3 [] true "id" "t0" "t1").isSome
      = true ∧
    ((quickBulkSend envAllSuccess [contactA] [tmplT] 5 3 [] true "id" "t0"
        "t1").getD dfltSession).delaySettings.minDelay = 5 ∧
    ((quickBulkSend envAllSuccess [contactA] [tmplT] 5 3 [] true "id" "t0"
        "t1").getD dfltSession).delaySettings.maxDelay = 3 := by
  decide

/-- Claim C9 as amended: sendBulkMessages rejects an inverted delay range,
an empty contact list or an empty template list before any session is
created; quickBulkSend rejects empty contact and template lists before any
session is created, but performs no delay-range validation. -/
theorem config_rejection_before_session (env : RunEnv) (cs : List Contact)
    (ts : List MessageTemplate) (mi ma q1 q2 : Nat) (od : List DelayRule) (cf : Bool)
    (id t0 t1 : String)
    (hb : ma ≤ mi ∨ cs = [] ∨ ts = []) :
    sendBulkMessages env cs ts mi ma od id t0 t1 = none ∧
    (cs = [] ∨ ts = [] → quickBulkSend env cs ts q1 q2 od cf id t0 t1 = none) := by
  constructor
  · unfold sendBulkMessages
    split_ifs with e1 e2 e3
    · rfl
    · rfl
    · rfl
    · rcases hb with h | h | h
      · exact absurd h e3
      · simp [h] at e1
      · simp [h] at e2
  · intro hq
    unfold quickBulkSend
    split_ifs with e1 e2 e3
    · rfl
    · rfl
    · rfl
    · rcases hq with h | h
      · simp [h] at e1
      · simp [h] at e2

/-- Witness for the amended claim C9: an inverted range with nonempty
contact and template lists is rejected by sendBulkMessages, and an empty
contact list is rejected by quickBulkSend. -/
theorem config_rejection_before_session_witness :
    sendBulkMessages envAllSuccess [contactA] [tmplT] 8 3 [] "id" "t0" "t1" = none ∧
    quickBulkSend envAllSuccess [] [tmplT] 2 6 [] true "id" "t0" "t1" = none :=
  ⟨(config_rejection_before_session envAllSuccess [contactA] [tmplT] 8 3 2 6 [] true
      "id" "t0" "t1" (Or.inl (by decide))).1,
   (config_rejection_before_session envAllSuccess [] [tmplT] 8 3 2 6 [] true
      "id" "t0" "t1" (Or.inr (Or.inl rfl))).2 (Or.inl rfl)⟩

/-- Claim C10. Resume matches attempted contacts by phone string only, so
two distinct contacts sharing one phone are both excluded from the
remaining set as soon as any SendResult of the session records that
phone. -/
theorem resume_excludes_duplicate_phones (s : BulkMessageSession) (cs : List Contact)
    (c1 c2 : Contact) (r : BulkMessageResult) (hne : c1 ≠ c2)
    (h1 : c1 ∈ cs) (h2 : c2 ∈ cs) (hph : c1.phone = c2.phone)
    (hr : r ∈ s.results) (hrp : r.contact.phone = c1.phone) :
    c1 ∉ remainingContacts s cs ∧ c2 ∉ remainingContacts s cs := by
  constructor
  · intro hmem
    obtain ⟨-, hall⟩ := (mem_remainingContacts s cs c1).1 hmem
    exact hall r hr hrp
  · intro hmem
    obtain ⟨-, hall⟩ := (mem_remainingContacts s cs c2).1 hmem
    exact hall r hr (hph ▸ hrp)

/-- Witness for claim C10 with the concrete duplicated phone of contacts
C and D. -/
theorem resume_excludes_duplicate_phones_witness :
    contactC ∉ remainingContacts sessDuplicate [contactC, contactD] ∧
    contactD ∉ remainingContacts sessDuplicate [contactC, contactD] :=
  resume_excludes_duplicate_phones sessDuplicate [contactC, contactD] contactC contactD
    resultC (by decide) (by decide) (by decide) (by decide) (by decide) (by decide)

end WhatsAppSender
